import Mathlib

/-!
Shallow embedding of the cmmv-express adapter (`ExpressAdapter`) and proofs
about its controller-binding and request-dispatch pipeline.

The embedding follows the TypeScript source: `registerControllers` (controller
binding, route registration, the per-route dispatch handler), `buildRouteArgs`
(parameter resolution), the `fullPath` construction, and the server lifecycle
(`close` / `closeOpenConnections`).  JavaScript values are modelled by an
inductive `JSValue`; exceptions by `Except JSError`; the mutable telemetry
store (an external collaborator, used through its `start` / `end` /
`getTelemetry` / `clearTelemetry` interface) by an explicit list of span
records threaded through the dispatch function.
-/

namespace CmmvExpress

/-- JavaScript runtime values, as far as the adapter inspects them.  The
request, response and next objects are opaque to the dispatch pipeline and are
represented by dedicated constructors. -/
inductive JSValue where
  | undefined
  | null
  | bool (b : Bool)
  | num (n : Int)
  | str (s : String)
  | obj (fields : List (String × JSValue))
  | reqRef
  | resRef
  | nextRef

/-- JavaScript truthiness, used for `if (breakProcess)` and `else if (result)`. -/
def truthy : JSValue → Bool
  | .undefined => false
  | .null => false
  | .bool b => b
  | .num n => n != 0
  | .str s => s != ""
  | .obj _ => true
  | .reqRef => true
  | .resRef => true
  | .nextRef => true

/-- Modelled from the spec: `isJson` lives in `AbstractHttpAdapter` (the
external `@cmmv/core` package, not part of this repository).  The spec
classifies a handler result as structured exactly when it is non-primitive,
so objects are structured and every primitive (including `undefined`) is not. -/
def isJson : JSValue → Bool
  | .obj _ => true
  | _ => false

/-- A thrown JavaScript error; `message` is `none` when the thrown value has
no message property. -/
structure JSError where
  message : Option String
  deriving DecidableEq

/-- The source computes `error.message || 'Internal Server Error'`: a missing
or empty (falsy) message falls back to the generic text. -/
def errMessage (e : JSError) : String :=
  match e.message with
  | some m => if m = "" then "Internal Server Error" else m
  | none => "Internal Server Error"

/-- Whether a telemetry record marks the start or the end of a span. -/
inductive SpanEvent where
  | start
  | finish
  deriving DecidableEq

/-- One record in the telemetry store: a span event keyed by request id. -/
structure TelemRec where
  reqId : String
  span : String
  event : SpanEvent
  deriving DecidableEq

/-- The telemetry store of the external Telemetry collaborator, modelled from
its interface (`start`, `end`, `getTelemetry`, `clearTelemetry`): an ordered
list of span records keyed by request id. -/
abbrev TelemetryStore := List TelemRec

/-- `Telemetry.start(span, requestId)` appends a start record. -/
def telemetryStart (span reqId : String) (t : TelemetryStore) : TelemetryStore :=
  t ++ [⟨reqId, span, .start⟩]

/-- `Telemetry.end(span, requestId)` appends an end record. -/
def telemetryEnd (span reqId : String) (t : TelemetryStore) : TelemetryStore :=
  t ++ [⟨reqId, span, .finish⟩]

/-- `Telemetry.getTelemetry(requestId)`: the ordered records for one request id. -/
def getTelemetry (reqId : String) (t : TelemetryStore) : List TelemRec :=
  t.filter (fun r => r.reqId == reqId)

/-- `Telemetry.clearTelemetry(requestId)`: removes every record for the id. -/
def clearTelemetry (reqId : String) (t : TelemetryStore) : TelemetryStore :=
  t.filter (fun r => r.reqId != reqId)

/-- JavaScript property lookup `m[k]` on an object: the first binding wins,
a missing key yields `undefined`. -/
def jsGet (m : List (String × JSValue)) (k : String) : JSValue :=
  match m.find? (fun p => p.1 == k) with
  | some p => p.2
  | none => .undefined

/-- The request object, with the fields `buildRouteArgs` reads. -/
structure Req where
  body : JSValue
  params : List (String × JSValue)
  query : List (String × JSValue)
  headers : List (String × JSValue)
  session : JSValue
  user : JSValue
  ip : JSValue
  hosts : JSValue

/-- One declared route parameter: `paramType` is the raw metadata string
(for example "param:id"), `index` the declared positional index. -/
structure Param where
  paramType : String
  index : Nat

/-- JavaScript `s.split(c)` for a single-character separator, on a list of
characters. -/
def splitCharAux (c : Char) : List Char → List Char → List (List Char)
  | [], acc => [acc.reverse]
  | x :: xs, acc =>
    if x = c then acc.reverse :: splitCharAux c xs []
    else splitCharAux c xs (x :: acc)

/-- JavaScript `s.split(c)`: always returns a non-empty list of pieces. -/
def splitChar (c : Char) (s : String) : List String :=
  (splitCharAux c s.data []).map (fun l => String.mk l)

/-- JavaScript `.toLowerCase()` on one character, for the ASCII range the
adapter lower-cases (HTTP method names, header names, route identities). -/
def asciiLower (c : Char) : Char :=
  if 'A' ≤ c ∧ c ≤ 'Z' then Char.ofNat (c.toNat + 32) else c

/-- JavaScript `s.toLowerCase()` (ASCII). -/
def jsToLower (s : String) : String :=
  String.mk (s.data.map asciiLower)

/-- The kind of a descriptor: the piece of `param.paramType.split(':')`
before the first ':'. -/
def paramKind (p : Param) : String :=
  (splitChar ':' p.paramType).headD ""

/-- The name of a descriptor: the piece of `param.paramType.split(':')`
after the first ':', absent (`undefined`) when there is none. -/
def paramName? (p : Param) : Option String :=
  (splitChar ':' p.paramType).get? 1

/-- One step of `buildRouteArgs`: resolve a single descriptor from the
request.  The source destructures `param.paramType.split(':')` into
`[paramType, paramName]`; a `header` descriptor with no name throws (the
source calls `.toLowerCase()` on `undefined`), while `param`/`query` index
the object with the string key "undefined" (JavaScript key coercion). -/
def resolveParam (req : Req) (p : Param) : Except JSError JSValue :=
  match paramKind p with
  | "body" => .ok req.body
  | "param" => .ok (jsGet req.params ((paramName? p).getD "undefined"))
  | "query" => .ok (jsGet req.query ((paramName? p).getD "undefined"))
  | "queries" => .ok (.obj req.query)
  | "header" =>
    match paramName? p with
    | some n => .ok (jsGet req.headers (jsToLower n))
    | none => .error ⟨some "Cannot read properties of undefined"⟩
  | "headers" => .ok (.obj req.headers)
  | "request" => .ok .reqRef
  | "response" => .ok .resRef
  | "next" => .ok .nextRef
  | "session" => .ok req.session
  | "user" => .ok req.user
  | "ip" => .ok req.ip
  | "hosts" => .ok req.hosts
  | _ => .ok .undefined

/-- JavaScript array assignment `args[i] = v`: replaces in place when `i` is
in bounds, otherwise extends the array, filling the holes with `undefined`. -/
def setIdx (args : List JSValue) (i : Nat) (v : JSValue) : List JSValue :=
  if i < args.length then args.set i v
  else args ++ List.replicate (i - args.length) JSValue.undefined ++ [v]

/-- The `params?.forEach` loop of `buildRouteArgs`: descriptors are processed
in declaration order, each assigning its resolved value at its declared
index; a thrown resolution aborts the loop and propagates. -/
def buildRouteArgsAux (req : Req) : List Param → List JSValue → Except JSError (List JSValue)
  | [], acc => .ok acc
  | p :: rest, acc =>
    match resolveParam req p with
    | .error e => .error e
    | .ok v => buildRouteArgsAux req rest (setIdx acc p.index v)

/-- `ExpressAdapter.buildRouteArgs`: resolve the declared descriptors into
the positional argument array. -/
def buildRouteArgs (req : Req) (params : List Param) : Except JSError (List JSValue) :=
  buildRouteArgsAux req params []

/-- The parameter kinds the `switch` in `buildRouteArgs` handles explicitly. -/
def knownParamKinds : List String :=
  ["body", "param", "query", "queries", "header", "headers", "request",
   "response", "next", "session", "user", "ip", "hosts"]

/-- The response envelope built by the dispatch handler: status 200 with
`data` on the structured-success branch, status 500 with `message` on the
catch branch; `requestId` and `telemetry` are attached only when the request
carried the debug query flag. -/
structure Envelope where
  status : Nat
  processingTime : Nat
  data : Option JSValue
  message : Option String
  requestId : Option String
  telemetry : Option (List TelemRec)

/-- A response emitted through the response object: `res.json(...)` /
`res.status(500).json(...)` send an envelope, `res.status(200).send(result)`
sends a raw body. -/
inductive SentResponse where
  | envelope (env : Envelope)
  | raw (status : Nat) (body : JSValue)

/-- Everything one dispatch of the per-route handler needs.  A request is
handled single-threadedly, so each interceptor and after-render hook is
modelled by the outcome its invocation produces for this request (a thrown
error or the awaited return value), and the handler by its awaited outcome;
`elapsed` abstracts `Date.now() - startTime`.  The `contextId` md5 hash set
on the request and the lower-cased route-identity string passed to the hooks
have no observable effect on the modelled state and are elided. -/
structure DispatchInput where
  reqId : String
  debug : Bool
  req : Req
  routeParams : List Param
  interceptors : List (Except JSError JSValue)
  handlerResult : Except JSError JSValue
  afterRenders : List (Except JSError Unit)
  elapsed : Nat

/-- Observable outcome of one dispatch: the final telemetry store, the
responses emitted in order, whether the controller handler was invoked, and
how many after-render hooks ran. -/
structure DispatchOutcome where
  telem : TelemetryStore
  sent : List SentResponse
  handlerInvoked : Bool
  afterRenderRuns : Nat

/-- The `for (const interceptor of ...)` loop: interceptors run in order; a
thrown interceptor propagates, a truthy return stops the loop with the
short-circuit signal (`.ok true`), otherwise the loop completes (`.ok false`). -/
def runInterceptors : List (Except JSError JSValue) → Except JSError Bool
  | [] => .ok false
  | r :: rest =>
    match r with
    | .error e => .error e
    | .ok v => if truthy v then .ok true else runInterceptors rest

/-- The `for (const afterRender of ...)` loop: hooks run in order until one
throws; returns how many hooks were invoked and the first thrown error. -/
def runAfterRenders : List (Except JSError Unit) → Nat × Option JSError
  | [] => (0, none)
  | r :: rest =>
    match r with
    | .error e => (1, some e)
    | .ok _ => let p := runAfterRenders rest; (p.1 + 1, p.2)

/-- The error envelope the catch block builds: status 500, the error's
message (or the generic fallback), and the debug extras when requested;
`t` is the telemetry store at `Telemetry.getTelemetry` time. -/
def errorEnvelope (inp : DispatchInput) (t : TelemetryStore) (e : JSError) : Envelope :=
  { status := 500
    processingTime := inp.elapsed
    data := none
    message := some (errMessage e)
    requestId := if inp.debug then some inp.reqId else none
    telemetry := if inp.debug then some (getTelemetry inp.reqId t) else none }

/-- The success envelope of the structured-result branch: status 200 with the
handler result as `data`, debug extras when requested. -/
def successEnvelope (inp : DispatchInput) (t : TelemetryStore) (result : JSValue) : Envelope :=
  { status := 200
    processingTime := inp.elapsed
    data := some result
    message := none
    requestId := if inp.debug then some inp.reqId else none
    telemetry := if inp.debug then some (getTelemetry inp.reqId t) else none }

/-- The catch block of the dispatch handler: close the "Request Process"
span, build the 500 envelope, send it, then fall through to the trailing
`Telemetry.clearTelemetry` call. -/
def catchPath (inp : DispatchInput) (t : TelemetryStore) (e : JSError)
    (invoked : Bool) (arRuns : Nat) : DispatchOutcome :=
  let t1 := telemetryEnd "Request Process" inp.reqId t
  { telem := clearTelemetry inp.reqId t1
    sent := [.envelope (errorEnvelope inp t1 e)]
    handlerInvoked := invoked
    afterRenderRuns := arRuns }

/-- The per-route dispatch handler built inside
`ExpressAdapter.registerControllers`, as a function from the pre-dispatch
telemetry store to the observable outcome.  Branches mirror the source:
interceptor short-circuit is a plain `return` inside the `try`, so it skips
the trailing `clearTelemetry`; argument resolution, the handler and the
after-render hooks may throw into the catch block; a structured result is
sent as a JSON envelope, a truthy non-structured result as a raw 200 body,
and a falsy result sends nothing. -/
def dispatch (inp : DispatchInput) (t0 : TelemetryStore) : DispatchOutcome :=
  match runInterceptors inp.interceptors with
  | .error e => catchPath inp t0 e false 0
  | .ok true =>
    { telem := t0, sent := [], handlerInvoked := false, afterRenderRuns := 0 }
  | .ok false =>
    match buildRouteArgs inp.req inp.routeParams with
    | .error e => catchPath inp t0 e false 0
    | .ok _ =>
      let t1 := telemetryStart "Controller Handler" inp.reqId t0
      match inp.handlerResult with
      | .error e => catchPath inp t1 e true 0
      | .ok result =>
        let t2 := telemetryEnd "Controller Handler" inp.reqId t1
        let t3 := telemetryEnd "Request Process" inp.reqId t2
        if isJson result then
          match runAfterRenders inp.afterRenders with
          | (n, some e) => catchPath inp t3 e true n
          | (n, none) =>
            { telem := clearTelemetry inp.reqId t3
              sent := [.envelope (successEnvelope inp t3 result)]
              handlerInvoked := true
              afterRenderRuns := n }
        else if truthy result then
          match runAfterRenders inp.afterRenders with
          | (n, some e) => catchPath inp t3 e true n
          | (n, none) =>
            { telem := clearTelemetry inp.reqId t3
              sent := [.raw 200 result]
              handlerInvoked := true
              afterRenderRuns := n }
        else
          { telem := clearTelemetry inp.reqId t3
            sent := []
            handlerInvoked := true
            afterRenderRuns := 0 }

/-- One route's registration metadata, as read by `registerControllers`:
`path` is the sub-path (the empty string models a falsy `route.path`). -/
structure RouteDef where
  method : String
  path : String
  handlerName : String
  deriving DecidableEq

/-- A controller's registration metadata: route-path piece `pfx`
(`metadata.prefix` in the source) and declared routes. -/
structure ControllerMeta where
  pfx : String
  routes : List RouteDef

/-- The path a route is mounted at, from `registerControllers`:
`` `/${prefix}${route.path ? '/' + route.path : ''}` `` — plain string
concatenation, with no separator normalization. -/
def fullPath (pfx subPath : String) : String :=
  "/" ++ pfx ++ (if subPath = "" then "" else "/" ++ subPath)

/-- A route as entered into the underlying server's method-specific table. -/
structure RegisteredRoute where
  method : String
  path : String
  handlerName : String
  deriving DecidableEq

/-- The route-registration loop of `registerControllers`: each route is
lower-cased and registered at `fullPath` only when the lower-cased method is
a property of the server instance (`if (this.instance[method])`); other
routes are skipped without any error. -/
def registerRoutes (serverMethods : List String) (meta : ControllerMeta) :
    List RegisteredRoute :=
  meta.routes.filterMap (fun r =>
    let m := jsToLower r.method
    if m ∈ serverMethods then some ⟨m, fullPath meta.pfx r.path, r.handlerName⟩
    else none)

/-- The dependency resolution of `registerControllers`:
`paramTypes.map(paramType => this.application.providersMap.get(paramType.name))`.
A `Map.get` miss yields `undefined`; nothing checks for it. -/
def resolveDeps (providers : List (String × JSValue)) (paramTypes : List String) :
    List JSValue :=
  paramTypes.map (fun t => jsGet providers t)

/-- The observable result of binding one controller: the arguments passed to
`new controllerClass(...instances)` and the routes it registered. -/
structure BoundController where
  ctorArgs : List JSValue
  registered : List RegisteredRoute

/-- One iteration of the `controllers.forEach` loop in `registerControllers`:
resolve constructor dependencies from the provider map, construct the
instance with them, and register the supported routes.  The function is
total: no lookup failure raises an error. -/
def bindController (serverMethods : List String) (providers : List (String × JSValue))
    (paramTypes : List String) (meta : ControllerMeta) : BoundController :=
  { ctorArgs := resolveDeps providers paramTypes
    registered := registerRoutes serverMethods meta }

/-- State owned by the server lifecycle part of the adapter: the tracked
open-connection set (socket ids), the sockets destroyed so far, the
underlying server (`none` before `initHttpServer`, otherwise whether it is
currently listening), and the truthiness of `this.instance.enabled` — on an
express instance `enabled` is a method, so the reference is truthy. -/
structure LifecycleState where
  openConnections : List Nat
  destroyed : List Nat
  httpServer : Option Bool
  instanceEnabledTruthy : Bool
  deriving DecidableEq

/-- How one `close()` call settles. -/
inductive CloseOutcome where
  | noServer
  | resolved
  | rejected (code : String)
  deriving DecidableEq

/-- `ExpressAdapter.closeOpenConnections`: destroy every tracked socket and
remove it from the set. -/
def closeOpenConnections (s : LifecycleState) : LifecycleState :=
  { s with openConnections := [], destroyed := s.destroyed ++ s.openConnections }

/-- Modelled from Node's documented `http.Server.close` interface (the server
is an external collaborator): when the server is listening it stops and the
callback fires without error; when it is not running the callback fires with
an `ERR_SERVER_NOT_RUNNING` error.  Returns the new listening state and the
callback's error. -/
def serverClose : Bool → Bool × Option String
  | true => (false, none)
  | false => (false, some "ERR_SERVER_NOT_RUNNING")

/-- `ExpressAdapter.close`: destroy tracked connections first, return
`undefined` when no server was ever created, otherwise call
`httpServer.close` under the `if (this.connected())` guard (`connected()`
returns `this.instance.enabled`), rejecting when the callback reports an
error. -/
def close (s : LifecycleState) : LifecycleState × CloseOutcome :=
  let s1 := closeOpenConnections s
  match s1.httpServer with
  | none => (s1, .noServer)
  | some listening =>
    if s1.instanceEnabledTruthy then
      match serverClose listening with
      | (l, none) => ({ s1 with httpServer := some l }, .resolved)
      | (l, some code) => ({ s1 with httpServer := some l }, .rejected code)
    else (s1, .resolved)

/-- A path has no duplicate separators: no two adjacent '/' characters. -/
def noDupSlash (s : String) : Prop :=
  List.Chain' (fun a b => ¬(a = '/' ∧ b = '/')) s.data

/-- A computable decision procedure for the no-duplicate-slash chain. -/
def decChainSlash :
    (l : List Char) → Decidable (List.Chain' (fun a b => ¬(a = '/' ∧ b = '/')) l)
  | [] => isTrue List.chain'_nil
  | [a] => isTrue (List.chain'_singleton a)
  | a :: b :: rest =>
    match decChainSlash (b :: rest) with
    | isTrue h =>
      if hab : a = '/' ∧ b = '/' then
        isFalse (fun hc => (List.chain'_cons.mp hc).1 hab)
      else isTrue (List.chain'_cons.mpr ⟨hab, h⟩)
    | isFalse h => isFalse (fun hc => h (List.chain'_cons.mp hc).2)

instance (s : String) : Decidable (noDupSlash s) :=
  decChainSlash s.data

/-- A path has exactly one leading slash: it starts with '/' and its second
character, if any, is not '/'. -/
def oneLeadingSlash (s : String) : Prop :=
  s.data.head? = some '/' ∧ s.data.get? 1 ≠ some '/'

instance (s : String) : Decidable (oneLeadingSlash s) :=
  inferInstanceAs (Decidable (s.data.head? = some '/' ∧ s.data.get? 1 ≠ some '/'))

/-- Normalized as the spec describes registered paths: exactly one leading
slash and no duplicate path separators. -/
def normalizedPath (s : String) : Prop :=
  oneLeadingSlash s ∧ noDupSlash s

instance (s : String) : Decidable (normalizedPath s) :=
  inferInstanceAs (Decidable (oneLeadingSlash s ∧ noDupSlash s))

/-- A clean path segment: does not begin or end with '/' and contains no
duplicate separator internally (the empty string is clean). -/
def cleanSeg (s : String) : Prop :=
  s.data.head? ≠ some '/' ∧ s.data.getLast? ≠ some '/' ∧ noDupSlash s

instance (s : String) : Decidable (cleanSeg s) :=
  inferInstanceAs
    (Decidable (s.data.head? ≠ some '/' ∧ s.data.getLast? ≠ some '/' ∧ noDupSlash s))

/-- A request carrying nothing, for concrete dispatch scenarios. -/
def emptyReq : Req :=
  { body := .undefined, params := [], query := [], headers := [],
    session := .undefined, user := .undefined, ip := .undefined, hosts := .undefined }

/-- The telemetry store a request reaches the route handler with: the
middleware installed by `setMiddleware` has already called
`Telemetry.start('Request Process', req.requestId)`. -/
def preDispatchStore (reqId : String) : TelemetryStore :=
  telemetryStart "Request Process" reqId []

/-- Concrete dispatch input whose handler returns `undefined` (a falsy,
non-structured result): no interceptors, no declared parameters, no hooks. -/
def falsyResultInput : DispatchInput :=
  { reqId := "r1", debug := false, req := emptyReq, routeParams := [],
    interceptors := [], handlerResult := .ok .undefined, afterRenders := [],
    elapsed := 5 }

/-- Concrete dispatch input with a single interceptor returning `true`: the
registered handler would return a structured object, and one after-render
hook is registered. -/
def shortCircuitInput : DispatchInput :=
  { reqId := "r2", debug := false, req := emptyReq, routeParams := [],
    interceptors := [.ok (.bool true)],
    handlerResult := .ok (.obj [("x", .num 1)]),
    afterRenders := [.ok ()], elapsed := 7 }

/-- Concrete dispatch input whose handler throws `Error("boom")`, with the
debug query flag set. -/
def boomInput : DispatchInput :=
  { reqId := "r3", debug := true, req := emptyReq, routeParams := [],
    interceptors := [], handlerResult := .error ⟨some "boom"⟩,
    afterRenders := [], elapsed := 11 }

/-- Concrete dispatch input for the success branch: handler returns a
structured object, no interceptors. -/
def successInput : DispatchInput :=
  { reqId := "r5", debug := false, req := emptyReq, routeParams := [],
    interceptors := [.ok (.bool false)],
    handlerResult := .ok (.obj [("ok", .bool true)]),
    afterRenders := [], elapsed := 3 }

/-- A descriptor with an unknown parameter kind. -/
def unknownKindParam : Param := ⟨"cookie:sid", 2⟩

/-- The request of the round-trip scenario for `/items/42?q=foo`: path
parameter `id = "42"`, query value `q = "foo"`. -/
def roundTripReq : Req :=
  { body := .undefined, params := [("id", .str "42")], query := [("q", .str "foo")],
    headers := [], session := .undefined, user := .undefined, ip := .undefined,
    hosts := .undefined }

/-- The declared descriptors of the round-trip scenario:
`[{index:0, kind:"param", name:"id"}, {index:1, kind:"query", name:"q"}]`. -/
def roundTripParams : List Param :=
  [⟨"param:id", 0⟩, ⟨"query:q", 1⟩]

/-- A one-route controller whose constructor declares a dependency. -/
def demoMeta : ControllerMeta :=
  { pfx := "docs", routes := [⟨"GET", "list", "getAll"⟩] }

/-- Lifecycle state of an adapter that is listening with two tracked
connections (the state right after a successful `listen`). -/
def listeningState : LifecycleState :=
  { openConnections := [1, 2], destroyed := [], httpServer := some true,
    instanceEnabledTruthy := true }

theorem getTelemetry_clearTelemetry (rid : String) (t : TelemetryStore) :
    getTelemetry rid (clearTelemetry rid t) = [] := by
  simp [getTelemetry, clearTelemetry, List.filter_filter]

/-- C9 (code_bug evidence): evaluated on the state right after a successful
`listen` with two tracked connections, the first `close()` resolves, destroys
both connections and empties the tracked set; but the second `close()`
rejects with the underlying server's not-running error, because
`connected()` returns the express instance's `enabled` method — a truthy
function reference — so the resolve-without-closing branch is unreachable. -/
theorem close_second_call_rejects :
    (close listeningState).2 = CloseOutcome.resolved ∧
    (close listeningState).1.openConnections = [] ∧
    (close listeningState).1.destroyed = [1, 2] ∧
    (close (close listeningState).1).1.openConnections = [] ∧
    (close (close listeningState).1).2 =
      CloseOutcome.rejected "ERR_SERVER_NOT_RUNNING" := by
  refine ⟨rfl, rfl, rfl, rfl, rfl⟩

/-- C10: a route whose lower-cased HTTP method is not a registration method
of the underlying server instance is silently skipped: it is never entered
into the route table, no error is raised (`registerRoutes` is total), and
the registrations contributed by the surrounding routes are unchanged. -/
theorem registerRoutes_skips_unknown_method (sm : List String) (pfx : String)
    (rs1 rs2 : List RouteDef) (r : RouteDef)
    (h : jsToLower r.method ∉ sm) :
    registerRoutes sm ⟨pfx, rs1 ++ r :: rs2⟩ =
      registerRoutes sm ⟨pfx, rs1⟩ ++ registerRoutes sm ⟨pfx, rs2⟩ := by
  unfold registerRoutes
  simp [List.filterMap_append, List.filterMap_cons, h]

theorem registerRoutes_skips_unknown_method_witness :
    registerRoutes ["get", "post"]
        ⟨"docs", [⟨"GET", "list", "getAll"⟩, ⟨"PATCH", "edit", "fix"⟩,
                  ⟨"POST", "new", "create"⟩]⟩ =
      registerRoutes ["get", "post"] ⟨"docs", [⟨"GET", "list", "getAll"⟩]⟩ ++
        registerRoutes ["get", "post"] ⟨"docs", [⟨"POST", "new", "create"⟩]⟩ :=
  registerRoutes_skips_unknown_method ["get", "post"] "docs"
    [⟨"GET", "list", "getAll"⟩] [⟨"POST", "new", "create"⟩]
    ⟨"PATCH", "edit", "fix"⟩ (by decide)

/-- C8 (counterexample): with an empty provider map and a controller
declaring one dependency, binding does not fail fast: the controller is
constructed with `undefined` as its dependency and its route is registered
anyway. -/
theorem bindController_missing_dep_proceeds :
    (bindController ["get"] [] ["DocsService"] demoMeta).ctorArgs =
      [JSValue.undefined] ∧
    (bindController ["get"] [] ["DocsService"] demoMeta).registered =
      [⟨"get", "/docs/list", "getAll"⟩] :=
  ⟨rfl, rfl⟩

/-- C8 (amended): a constructor dependency absent from the provider map is
resolved to `undefined` and passed to the controller constructor at its
declared position; binding proceeds and route registration is unaffected by
the content of the provider map. -/
theorem bindController_missing_dep_undefined (sm : List String)
    (providers : List (String × JSValue)) (ts : List String)
    (meta : ControllerMeta) (i : Nat) (t : String)
    (hi : ts.get? i = some t)
    (hmiss : ∀ x ∈ providers, x.1 ≠ t) :
    (bindController sm providers ts meta).ctorArgs.get? i = some JSValue.undefined ∧
    ∀ providers2, (bindController sm providers ts meta).registered =
      (bindController sm providers2 ts meta).registered := by
  refine ⟨?_, fun _ => rfl⟩
  have hfind : providers.find? (fun p => p.1 == t) = none :=
    List.find?_eq_none.mpr (fun x hx => by simpa using hmiss x hx)
  have hmap := List.get?_map (fun t => jsGet providers t) ts i
  simp only [bindController, resolveDeps]
  rw [hmap, hi]
  simp [jsGet, hfind]

theorem bindController_missing_dep_undefined_witness :
    (bindController ["get"] [] ["DocsService"] demoMeta).ctorArgs.get? 0 =
      some JSValue.undefined :=
  (bindController_missing_dep_undefined ["get"] [] ["DocsService"] demoMeta 0
    "DocsService" rfl (fun x hx => absurd hx (List.not_mem_nil x))).1

/-- C7 (counterexample): for the controller route-path piece "/a" (a value
beginning with a slash, which the claim explicitly includes) and an empty
sub-path, the registered path is the unnormalized "//a": it has two leading
slashes and a duplicate separator. -/
theorem fullPath_not_normalized :
    fullPath "/a" "" = "//a" ∧ ¬ normalizedPath (fullPath "/a" "") := by
  exact ⟨rfl, by decide⟩

/-- C5: a descriptor whose kind is not among the thirteen known kinds is
resolved to `undefined` (the explicit absent value) without any exception,
and `buildRouteArgs` places that `undefined` at the descriptor's declared
index. -/
theorem buildRouteArgs_unknown_kind (req : Req) (p : Param)
    (h : paramKind p ∉ knownParamKinds) :
    resolveParam req p = .ok .undefined ∧
    buildRouteArgs req [p] = .ok (List.replicate (p.index + 1) JSValue.undefined) := by
  simp only [knownParamKinds, List.mem_cons, List.mem_singleton, not_or] at h
  have hres : resolveParam req p = .ok .undefined := by
    unfold resolveParam
    split <;> simp_all
  refine ⟨hres, ?_⟩
  unfold buildRouteArgs buildRouteArgsAux
  rw [hres]
  simp [buildRouteArgsAux, setIdx, List.replicate_succ']

theorem buildRouteArgs_unknown_kind_witness :
    resolveParam emptyReq unknownKindParam = .ok .undefined ∧
    buildRouteArgs emptyReq [unknownKindParam] =
      .ok (List.replicate 3 JSValue.undefined) :=
  buildRouteArgs_unknown_kind emptyReq unknownKindParam (by decide)

theorem shape_of_catchPath {inp : DispatchInput} {o : DispatchOutcome}
    {t : TelemetryStore} {e : JSError} {inv : Bool} {n : Nat}
    (hd : o = catchPath inp t e inv n) :
    (o.sent = [] ∨
      (∃ env, o.sent = [.envelope env] ∧
        (env.status = 200 ∨ env.status = 500)) ∨
      (∃ b, o.sent = [.raw 200 b])) ∧
    getTelemetry inp.reqId o.telem = [] := by
  subst hd
  exact ⟨Or.inr (Or.inl ⟨_, rfl, Or.inr rfl⟩), getTelemetry_clearTelemetry _ _⟩

theorem dispatch_shape (inp : DispatchInput) (t0 : TelemetryStore) :
    ((dispatch inp t0).sent = [] ∨
      (∃ env, (dispatch inp t0).sent = [.envelope env] ∧
        (env.status = 200 ∨ env.status = 500)) ∨
      (∃ b, (dispatch inp t0).sent = [.raw 200 b])) ∧
    (runInterceptors inp.interceptors = .ok true → (dispatch inp t0).telem = t0) ∧
    (runInterceptors inp.interceptors ≠ .ok true →
      getTelemetry inp.reqId (dispatch inp t0).telem = []) := by
  cases hri : runInterceptors inp.interceptors with
  | error e =>
    have hd : dispatch inp t0 = catchPath inp t0 e false 0 := by
      simp [dispatch, hri]
    have h2 := shape_of_catchPath hd
    exact ⟨h2.1, fun hcon => by simp at hcon, fun _ => h2.2⟩
  | ok b =>
    cases b with
    | true =>
      have hd : dispatch inp t0 =
          { telem := t0, sent := [], handlerInvoked := false,
            afterRenderRuns := 0 } := by
        simp [dispatch, hri]
      exact ⟨Or.inl (by rw [hd]), fun _ => by rw [hd],
        fun hcon => absurd rfl hcon⟩
    | false =>
      cases hargs : buildRouteArgs inp.req inp.routeParams with
      | error e =>
        have hd : dispatch inp t0 = catchPath inp t0 e false 0 := by
          simp [dispatch, hri, hargs]
        have h2 := shape_of_catchPath hd
        exact ⟨h2.1, fun hcon => by simp at hcon, fun _ => h2.2⟩
      | ok args =>
        cases hres : inp.handlerResult with
        | error e =>
          have hd : dispatch inp t0 =
              catchPath inp (telemetryStart "Controller Handler" inp.reqId t0)
                e true 0 := by
            simp [dispatch, hri, hargs, hres]
          have h2 := shape_of_catchPath hd
          exact ⟨h2.1, fun hcon => by simp at hcon, fun _ => h2.2⟩
        | ok r =>
          rcases hAR : runAfterRenders inp.afterRenders with ⟨n, oe⟩
          cases hj : isJson r with
          | true =>
            cases oe with
            | some e2 =>
              have hd : dispatch inp t0 =
                  catchPath inp
                    (telemetryEnd "Request Process" inp.reqId
                      (telemetryEnd "Controller Handler" inp.reqId
                        (telemetryStart "Controller Handler" inp.reqId t0)))
                    e2 true n := by
                simp [dispatch, hri, hargs, hres, hj, hAR]
              have h2 := shape_of_catchPath hd
              exact ⟨h2.1, fun hcon => by simp at hcon, fun _ => h2.2⟩
            | none =>
              have hd : dispatch inp t0 =
                  { telem := clearTelemetry inp.reqId
                      (telemetryEnd "Request Process" inp.reqId
                        (telemetryEnd "Controller Handler" inp.reqId
                          (telemetryStart "Controller Handler" inp.reqId t0)))
                    sent := [.envelope (successEnvelope inp
                      (telemetryEnd "Request Process" inp.reqId
                        (telemetryEnd "Controller Handler" inp.reqId
                          (telemetryStart "Controller Handler" inp.reqId t0))) r)]
                    handlerInvoked := true
                    afterRenderRuns := n } := by
                simp [dispatch, hri, hargs, hres, hj, hAR]
              exact ⟨Or.inr (Or.inl ⟨_, by rw [hd], Or.inl rfl⟩),
                fun hcon => by simp at hcon,
                fun _ => by rw [hd]; exact getTelemetry_clearTelemetry _ _⟩
          | false =>
            cases ht : truthy r with
            | true =>
              cases oe with
              | some e2 =>
                have hd : dispatch inp t0 =
                    catchPath inp
                      (telemetryEnd "Request Process" inp.reqId
                        (telemetryEnd "Controller Handler" inp.reqId
                          (telemetryStart "Controller Handler" inp.reqId t0)))
                      e2 true n := by
                  simp [dispatch, hri, hargs, hres, hj, ht, hAR]
                have h2 := shape_of_catchPath hd
                exact ⟨h2.1, fun hcon => by simp at hcon, fun _ => h2.2⟩
              | none =>
                have hd : dispatch inp t0 =
                    { telem := clearTelemetry inp.reqId
                        (telemetryEnd "Request Process" inp.reqId
                          (telemetryEnd "Controller Handler" inp.reqId
                            (telemetryStart "Controller Handler" inp.reqId t0)))
                      sent := [.raw 200 r]
                      handlerInvoked := true
                      afterRenderRuns := n } := by
                  simp [dispatch, hri, hargs, hres, hj, ht, hAR]
                exact ⟨Or.inr (Or.inr ⟨r, by rw [hd]⟩),
                  fun hcon => by simp at hcon,
                  fun _ => by rw [hd]; exact getTelemetry_clearTelemetry _ _⟩
            | false =>
              have hd : dispatch inp t0 =
                  { telem := clearTelemetry inp.reqId
                      (telemetryEnd "Request Process" inp.reqId
                        (telemetryEnd "Controller Handler" inp.reqId
                          (telemetryStart "Controller Handler" inp.reqId t0)))
                    sent := []
                    handlerInvoked := true
                    afterRenderRuns := 0 } := by
                simp [dispatch, hri, hargs, hres, hj, ht]
              exact ⟨Or.inl (by rw [hd]),
                fun hcon => by simp at hcon,
                fun _ => by rw [hd]; exact getTelemetry_clearTelemetry _ _⟩

/-- C1 (counterexample): when the handler returns `undefined` (a falsy,
non-structured result), dispatch completes without sending any response at
all — zero ResponseEnvelopes, not exactly one. -/
theorem dispatch_falsy_result_no_envelope :
    (dispatch falsyResultInput (preDispatchStore "r1")).sent = [] ∧
    (dispatch falsyResultInput (preDispatchStore "r1")).sent.length ≠ 1 :=
  ⟨rfl, by decide⟩

/-- C1 (amended): each dispatch sends at most one response — never both a
success and an error envelope; every envelope sent carries status 200 or
500, and a non-structured truthy result is sent as a raw body with HTTP
status 200; unless an interceptor short-circuited the dispatch, telemetry
for the request identifier is empty immediately after dispatch completes. -/
theorem dispatch_response_discipline (inp : DispatchInput) (t0 : TelemetryStore) :
    (dispatch inp t0).sent.length ≤ 1 ∧
    (∀ env, SentResponse.envelope env ∈ (dispatch inp t0).sent →
      env.status = 200 ∨ env.status = 500) ∧
    (∀ st b, SentResponse.raw st b ∈ (dispatch inp t0).sent → st = 200) ∧
    (runInterceptors inp.interceptors ≠ .ok true →
      getTelemetry inp.reqId (dispatch inp t0).telem = []) := by
  obtain ⟨hsent, _, hclear⟩ := dispatch_shape inp t0
  refine ⟨?_, ?_, ?_, hclear⟩
  · rcases hsent with h | ⟨env0, h, _⟩ | ⟨b0, h⟩ <;> simp [h]
  · rcases hsent with h | ⟨env0, h, hst⟩ | ⟨b0, h⟩ <;> intro env hmem <;>
      simp [h] at hmem
    exact hmem ▸ hst
  · rcases hsent with h | ⟨env0, h, _⟩ | ⟨b0, h⟩ <;> intro st b hmem <;>
      simp [h] at hmem
    exact hmem.1

theorem dispatch_response_discipline_witness :
    getTelemetry "r5" (dispatch successInput (preDispatchStore "r5")).telem = [] :=
  (dispatch_response_discipline successInput (preDispatchStore "r5")).2.2.2
    (by intro h; simp [runInterceptors, truthy, successInput] at h)

theorem runInterceptors_shortCircuit (l : List (Except JSError JSValue)) :
    ∀ (i : Nat) (v : JSValue),
      l.get? i = some (.ok v) → truthy v = true →
      (∀ j, j < i → ∃ w, l.get? j = some (.ok w) ∧ truthy w = false) →
      runInterceptors l = .ok true := by
  induction l with
  | nil => intro i v hi _ _; simp at hi
  | cons x rest ih =>
    intro i v hi hv hprev
    match i with
    | 0 =>
      simp at hi
      simp [runInterceptors, hi, hv]
    | i + 1 =>
      obtain ⟨w, hw, hwf⟩ := hprev 0 (Nat.succ_pos i)
      simp at hw
      simp only [runInterceptors, hw, hwf, if_neg]
      exact ih i v (by simpa using hi) hv (fun j hj => by
        simpa using hprev (j + 1) (Nat.succ_lt_succ hj))

/-- C2: if the interceptor loop reaches an interceptor that returns a truthy
value (every earlier interceptor completed with a falsy return), dispatch
stops at the `return` statement: the controller handler is never invoked,
no after-render hook runs, and no response is emitted by the dispatch
function itself. -/
theorem dispatch_short_circuit_stops (inp : DispatchInput) (t0 : TelemetryStore)
    (i : Nat) (v : JSValue)
    (hi : inp.interceptors.get? i = some (.ok v))
    (hv : truthy v = true)
    (hprev : ∀ j, j < i →
      ∃ w, inp.interceptors.get? j = some (.ok w) ∧ truthy w = false) :
    (dispatch inp t0).handlerInvoked = false ∧
    (dispatch inp t0).afterRenderRuns = 0 ∧
    (dispatch inp t0).sent = [] := by
  have h := runInterceptors_shortCircuit inp.interceptors i v hi hv hprev
  simp [dispatch, h]

theorem dispatch_short_circuit_stops_witness :
    (dispatch shortCircuitInput (preDispatchStore "r2")).handlerInvoked = false ∧
    (dispatch shortCircuitInput (preDispatchStore "r2")).afterRenderRuns = 0 ∧
    (dispatch shortCircuitInput (preDispatchStore "r2")).sent = [] :=
  dispatch_short_circuit_stops shortCircuitInput (preDispatchStore "r2") 0
    (.bool true) rfl rfl (fun j hj => absurd hj (Nat.not_lt_zero j))

theorem catchPath_spec (inp : DispatchInput) (t : TelemetryStore) (e : JSError)
    (inv : Bool) (n : Nat) :
    ∃ env, (catchPath inp t e inv n).sent = [.envelope env] ∧
      env.status = 500 ∧
      env.processingTime = inp.elapsed ∧
      env.message = some (errMessage e) ∧
      (inp.debug = true →
        env.requestId = some inp.reqId ∧ ∃ tl, env.telemetry = some tl) ∧
      (inp.debug = false → env.requestId = none ∧ env.telemetry = none) := by
  refine ⟨errorEnvelope inp (telemetryEnd "Request Process" inp.reqId t) e,
    rfl, rfl, rfl, rfl, ?_, ?_⟩
  · intro hd
    exact ⟨by simp [errorEnvelope, hd],
      getTelemetry inp.reqId (telemetryEnd "Request Process" inp.reqId t),
      by simp [errorEnvelope, hd]⟩
  · intro hd
    exact ⟨by simp [errorEnvelope, hd], by simp [errorEnvelope, hd]⟩

/-- C3: whenever a step of dispatch after the interceptor loop throws —
argument resolution, the controller handler, or an after-render hook on a
branch that produced content — the catch block sends exactly one envelope:
status 500, the numeric processing time, and the thrown error's message
(generic fallback when absent), plus `requestId` and a telemetry array
exactly when the debug flag is set.  `dispatch` is a total function, so
this error path never re-throws. -/
theorem dispatch_error_envelope (inp : DispatchInput) (t0 : TelemetryStore)
    (e : JSError)
    (hni : runInterceptors inp.interceptors = .ok false)
    (hthrow :
      buildRouteArgs inp.req inp.routeParams = .error e ∨
      ((∃ args, buildRouteArgs inp.req inp.routeParams = .ok args) ∧
        inp.handlerResult = .error e) ∨
      (∃ args r, buildRouteArgs inp.req inp.routeParams = .ok args ∧
        inp.handlerResult = .ok r ∧
        (isJson r = true ∨ (isJson r = false ∧ truthy r = true)) ∧
        (runAfterRenders inp.afterRenders).2 = some e)) :
    ∃ env, (dispatch inp t0).sent = [.envelope env] ∧
      env.status = 500 ∧
      env.processingTime = inp.elapsed ∧
      env.message = some (errMessage e) ∧
      (inp.debug = true →
        env.requestId = some inp.reqId ∧ ∃ tl, env.telemetry = some tl) ∧
      (inp.debug = false → env.requestId = none ∧ env.telemetry = none) := by
  rcases hthrow with hargs | ⟨⟨args, hargs⟩, hres⟩ | ⟨args, r, hargs, hres, hbr, hAR⟩
  · rw [show dispatch inp t0 = catchPath inp t0 e false 0 by
      simp [dispatch, hni, hargs]]
    exact catchPath_spec inp t0 e false 0
  · rw [show dispatch inp t0 =
        catchPath inp (telemetryStart "Controller Handler" inp.reqId t0) e true 0 by
      simp [dispatch, hni, hargs, hres]]
    exact catchPath_spec inp _ e true 0
  · rcases hAR2 : runAfterRenders inp.afterRenders with ⟨n, oe⟩
    rw [hAR2] at hAR
    simp only at hAR
    subst hAR
    rcases hbr with hj | ⟨hj, ht⟩
    · rw [show dispatch inp t0 =
          catchPath inp
            (telemetryEnd "Request Process" inp.reqId
              (telemetryEnd "Controller Handler" inp.reqId
                (telemetryStart "Controller Handler" inp.reqId t0))) e true n by
        simp [dispatch, hni, hargs, hres, hj, hAR2]]
      exact catchPath_spec inp _ e true n
    · rw [show dispatch inp t0 =
          catchPath inp
            (telemetryEnd "Request Process" inp.reqId
              (telemetryEnd "Controller Handler" inp.reqId
                (telemetryStart "Controller Handler" inp.reqId t0))) e true n by
        simp [dispatch, hni, hargs, hres, hj, ht, hAR2]]
      exact catchPath_spec inp _ e true n

theorem dispatch_error_envelope_witness :
    ∃ env, (dispatch boomInput (preDispatchStore "r3")).sent = [.envelope env] ∧
      env.status = 500 ∧
      env.processingTime = 11 ∧
      env.message = some "boom" ∧
      (true = true → env.requestId = some "r3" ∧ ∃ tl, env.telemetry = some tl) ∧
      (true = false → env.requestId = none ∧ env.telemetry = none) :=
  dispatch_error_envelope boomInput (preDispatchStore "r3") ⟨some "boom"⟩ rfl
    (Or.inr (Or.inl ⟨⟨[], rfl⟩, rfl⟩))

/-- C4 (counterexample): when an interceptor short-circuits, the plain
`return` inside the `try` block skips the trailing
`Telemetry.clearTelemetry` call, so the "Request Process" start record for
the request id survives dispatch: telemetry is not cleared on that branch. -/
theorem dispatch_short_circuit_keeps_telemetry :
    getTelemetry "r2"
        (dispatch shortCircuitInput (preDispatchStore "r2")).telem =
      [⟨"r2", "Request Process", .start⟩] ∧
    getTelemetry "r2"
        (dispatch shortCircuitInput (preDispatchStore "r2")).telem ≠ [] :=
  ⟨rfl, by decide⟩

/-- C4 (amended): telemetry for the request identifier is fully cleared as
the final action of dispatch on every branch that completes the `try`/`catch`
(success, falsy result, and every caught error), but an interceptor
short-circuit returns from inside the `try` block and leaves the telemetry
store untouched. -/
theorem dispatch_clear_telemetry_branches (inp : DispatchInput)
    (t0 : TelemetryStore) :
    (runInterceptors inp.interceptors = .ok true →
      (dispatch inp t0).telem = t0) ∧
    (runInterceptors inp.interceptors ≠ .ok true →
      getTelemetry inp.reqId (dispatch inp t0).telem = []) :=
  ⟨(dispatch_shape inp t0).2.1, (dispatch_shape inp t0).2.2⟩

theorem dispatch_clear_telemetry_branches_witness :
    (dispatch shortCircuitInput (preDispatchStore "r2")).telem =
      preDispatchStore "r2" :=
  (dispatch_clear_telemetry_branches shortCircuitInput
    (preDispatchStore "r2")).1 rfl

theorem setIdx_getElem_self (a : List JSValue) (i : Nat) (v : JSValue) :
    (setIdx a i v)[i]? = some v := by
  unfold setIdx
  by_cases h : i < a.length
  · simp [h]
  · rw [if_neg h]
    have hlen : (a ++ List.replicate (i - a.length) JSValue.undefined).length = i := by
      simp only [List.length_append, List.length_replicate]
      omega
    have hcat :=
      List.getElem?_concat_length (a ++ List.replicate (i - a.length) JSValue.undefined) v
    rwa [hlen] at hcat

theorem setIdx_getElem_ne (a : List JSValue) (i j : Nat) (v w : JSValue)
    (hne : j ≠ i) (hj : a[j]? = some w) : (setIdx a i v)[j]? = some w := by
  have hjlen : j < a.length := by
    obtain ⟨h, _⟩ := List.getElem?_eq_some_iff.mp hj
    exact h
  unfold setIdx
  by_cases h : i < a.length
  · rw [if_pos h, List.getElem?_set_ne (Ne.symm hne)]
    exact hj
  · rw [if_neg h]
    rw [List.getElem?_append_left (by simp; omega)]
    rw [List.getElem?_append_left hjlen]
    exact hj

theorem buildRouteArgsAux_preserve (req : Req) :
    ∀ (params : List Param) (acc args : List JSValue) (j : Nat) (w : JSValue),
      buildRouteArgsAux req params acc = .ok args →
      (∀ q ∈ params, q.index ≠ j) →
      acc[j]? = some w → args[j]? = some w := by
  intro params
  induction params with
  | nil =>
    intro acc args j w hok _ hacc
    cases hok
    exact hacc
  | cons q rest ih =>
    intro acc args j w hok hall hacc
    unfold buildRouteArgsAux at hok
    cases hq : resolveParam req q with
    | error e => rw [hq] at hok; cases hok
    | ok v =>
      rw [hq] at hok
      exact ih (setIdx acc q.index v) args j w hok
        (fun r hr => hall r (List.mem_cons_of_mem q hr))
        (setIdx_getElem_ne acc q.index j v w
          (Ne.symm (hall q (List.mem_cons_self q rest))) hacc)

theorem buildRouteArgsAux_get (req : Req) :
    ∀ (params : List Param) (acc args : List JSValue) (p : Param) (v : JSValue),
      buildRouteArgsAux req params acc = .ok args →
      p ∈ params →
      resolveParam req p = .ok v →
      params.Pairwise (fun a b => a.index ≠ b.index) →
      args[p.index]? = some v := by
  intro params
  induction params with
  | nil =>
    intro _ _ _ _ _ hp
    cases hp
  | cons q rest ih =>
    intro acc args p v hok hp hv hpw
    unfold buildRouteArgsAux at hok
    cases hq : resolveParam req q with
    | error e => rw [hq] at hok; cases hok
    | ok w =>
      rw [hq] at hok
      rcases List.mem_cons.mp hp with hpq | hpr
      · subst hpq
        rw [hv] at hq
        injection hq with hvw
        subst hvw
        exact buildRouteArgsAux_preserve req rest (setIdx acc p.index v) args
          p.index v hok
          (fun r hr => Ne.symm ((List.pairwise_cons.mp hpw).1 r hr))
          (setIdx_getElem_self acc p.index v)
      · exact ih (setIdx acc q.index w) args p v hok hpr hv
          (List.pairwise_cons.mp hpw).2

/-- C6: the Parameter Resolver places each resolved value at the
descriptor's declared positional index, not at its declaration-order
position (descriptor indices are taken pairwise distinct, as the spec's
dense-indices contract guarantees); in particular, for the declared
descriptors `[{index:0, kind:"param", name:"id"}, {index:1, kind:"query",
name:"q"}]` and a request with path parameter `id = "42"` and query value
`q = "foo"`, the resolved argument array is exactly `["42", "foo"]`. -/
theorem buildRouteArgs_places_by_index :
    (∀ (req : Req) (params : List Param) (args : List JSValue) (p : Param)
        (v : JSValue),
      buildRouteArgs req params = .ok args →
      p ∈ params →
      resolveParam req p = .ok v →
      params.Pairwise (fun a b => a.index ≠ b.index) →
      args[p.index]? = some v) ∧
    buildRouteArgs roundTripReq roundTripParams =
      .ok [JSValue.str "42", JSValue.str "foo"] := by
  refine ⟨?_, rfl⟩
  intro req params args p v hok hp hv hpw
  exact buildRouteArgsAux_get req params [] args p v hok hp hv hpw

theorem buildRouteArgs_places_by_index_witness :
    [JSValue.str "42", JSValue.str "foo"][0]? = some (JSValue.str "42") ∧
    [JSValue.str "42", JSValue.str "foo"][1]? = some (JSValue.str "foo") :=
  ⟨buildRouteArgs_places_by_index.1 roundTripReq roundTripParams
      [JSValue.str "42", JSValue.str "foo"] ⟨"param:id", 0⟩ (JSValue.str "42")
      buildRouteArgs_places_by_index.2
      (by simp [roundTripParams]) rfl
      (by simp [roundTripParams]),
    buildRouteArgs_places_by_index.1 roundTripReq roundTripParams
      [JSValue.str "42", JSValue.str "foo"] ⟨"query:q", 1⟩ (JSValue.str "foo")
      buildRouteArgs_places_by_index.2
      (by simp [roundTripParams]) rfl
      (by simp [roundTripParams])⟩

/-- C7 (amended): the registered path is the literal concatenation
`'/' + prefix + (subPath ? '/' + subPath : '')` with no normalization; it
has exactly one leading slash and no duplicate separators whenever the
controller path piece is non-empty and both pieces are clean segments
(neither begins nor ends with '/', and neither contains "//" internally). -/
theorem fullPath_normalized_clean (pfx sub : String)
    (hne : pfx ≠ "") (hp : cleanSeg pfx) (hs : cleanSeg sub) :
    normalizedPath (fullPath pfx sub) := by
  obtain ⟨hph, hpl, hpc⟩ := hp
  obtain ⟨hsh, _, hsc⟩ := hs
  have hpd : pfx.data ≠ [] := fun h => hne (String.ext (h.trans rfl))
  obtain ⟨c, cs, hcs⟩ := List.exists_cons_of_ne_nil hpd
  have hcslash : c ≠ '/' := by
    intro h
    apply hph
    rw [hcs, h]
    rfl
  by_cases hsub : sub = ""
  · have hdata : (fullPath pfx sub).data = '/' :: c :: cs := by
      simp [fullPath, hsub, hcs]
    constructor
    · constructor
      · rw [hdata]; rfl
      · rw [hdata]
        simp [hcslash]
    · rw [noDupSlash, hdata]
      rw [List.chain'_cons]
      refine ⟨fun hcon => hcslash hcon.2, ?_⟩
      rw [← hcs]
      exact hpc
  · have hdata : (fullPath pfx sub).data = '/' :: c :: (cs ++ '/' :: sub.data) := by
      simp [fullPath, hsub, hcs]
    constructor
    · constructor
      · rw [hdata]; rfl
      · rw [hdata]
        simp [hcslash]
    · rw [noDupSlash, hdata]
      rw [List.chain'_cons]
      refine ⟨fun hcon => hcslash hcon.2, ?_⟩
      rw [show c :: (cs ++ '/' :: sub.data) = (c :: cs) ++ '/' :: sub.data from rfl]
      rw [List.chain'_append]
      refine ⟨by rw [← hcs]; exact hpc, ?_, ?_⟩
      · rw [List.chain'_cons']
        refine ⟨?_, hsc⟩
        intro y hy hcon
        exact hsh (by rw [Option.mem_def.mp hy, hcon.2])
      · intro x hx y _ hcon
        apply hpl
        rw [hcs, Option.mem_def.mp hx, hcon.1]

theorem fullPath_normalized_clean_witness :
    normalizedPath (fullPath "docs" "list") :=
  fullPath_normalized_clean "docs" "list" (by decide) (by decide) (by decide)

end CmmvExpress
